import Mathlib

/-!
Shallow embedding of the customer-service agent's tool-call mediation layer
(`customer_service/shared_libraries/callbacks.py`), the account and order
tools (`customer_service/tools/account_management.py`,
`customer_service/tools/order_management.py`) and the SQLite-backed record
store (`customer_service/database/database.py`), together with theorems
settling the spec's testable properties against this embedding.

Python exceptions are modelled with `Except PyError`; Python dicts are
association lists keyed by `String`; floats are modelled as rationals.
-/

set_option autoImplicit false

namespace CustomerService

/-- Python exception values that the embedded code can raise.  The class of
the exception matters: `except ValidationError` in `callbacks.py` names
`jsonschema.ValidationError` (the module imports
`from jsonschema import ValidationError`), which is unrelated to
`pydantic.ValidationError`, so the two are distinct constructors. -/
inductive PyError where
  | pydanticValidationError (msg : String)
  | jsonschemaValidationError (msg : String)
  | keyError (key : String)
  | valueError (msg : String)
  | typeError (msg : String)
  | operationalError (msg : String)
deriving DecidableEq, Repr

/-- `except ValidationError` in `validate_customer_id` catches only the
`jsonschema` class imported at the top of `callbacks.py`. -/
def isJsonschemaValidationError : PyError → Bool
  | .jsonschemaValidationError _ => true
  | _ => false

/-! ## Data models (`customer_service/datamodels/account.py`, `orders.py`)

The pydantic models.  Fields whose content no claim consults are kept with
their source types; JSON columns of the record store are modelled directly
as the parsed values they serialize (json.loads is the identity on them). -/

/-- `datamodels/account.py` `ProfileData`. -/
structure ProfileData where
  first_name : String
  last_name : String
  phone : String := ""
  birthdate : String := ""
  account_number : String := ""
  customer_start_date : String := ""
deriving DecidableEq, Repr

/-- `datamodels/account.py` `LoyaltyBalance`. -/
structure LoyaltyBalance where
  points : Int := 0
  tier : String := "bronze"
  rewards : List String := []
deriving DecidableEq, Repr

/-- `datamodels/account.py` `SubscriptionPreferences`. -/
structure SubscriptionPreferences where
  marketing : Bool
  newsletters : Bool := false
  product_updates : Bool := false
deriving DecidableEq, Repr

/-- `datamodels/account.py` `CommunicationPreferences`. -/
structure CommunicationPreferences where
  email : Bool
  sms : Bool
  push_notifications : Bool
deriving DecidableEq, Repr

/-- `datamodels/account.py` `Address` (= `AddressData` plus `id`). -/
structure Address where
  id : String
  line1 : String
  line2 : String := ""
  city : String := ""
  state : String := ""
  postal_code : String
  country : String := ""
deriving DecidableEq, Repr

/-- `datamodels/account.py` `PaymentMethod`. -/
structure PaymentMethod where
  id : String
  brand : String
  last4 : String
  exp_month : Int
  exp_year : Int
  token : String := ""
deriving DecidableEq, Repr

/-- `datamodels/account.py` `OrderItemWithInfo`. -/
structure OrderItemWithInfo where
  product_id : String
  quantity : Int
  name : String
  unit_price : ℚ
deriving DecidableEq, Repr

/-- `datamodels/account.py` `Order` (pydantic). -/
structure Order where
  id : String
  date_ordered : String
  date_delivered : String := ""
  total : ℚ
  status : String := "processing"
  items : List OrderItemWithInfo := []
  shipping_address : String := ""
  payment_method : String := ""
deriving DecidableEq, Repr

/-- `datamodels/account.py` `CustomerRecord`. -/
structure CustomerRecord where
  id : String
  email : String
  profile : ProfileData := ⟨"", "", "", "", "", ""⟩
  addresses : List Address := []
  payment_methods : List PaymentMethod := []
  orders : List Order := []
  loyalty : LoyaltyBalance := {}
  subscriptions : SubscriptionPreferences := ⟨true, false, false⟩
  locked : Bool := false
  deleted : Bool := false
deriving DecidableEq, Repr

/-- `datamodels/orders.py` `OrderCancellationResult`: all four fields are
required (none has a default), in particular `refund_eta`. -/
structure OrderCancellationResult where
  success : Bool
  message : String
  refund_amount : ℚ
  refund_eta : String
deriving DecidableEq, Repr

/-- Pydantic construction `OrderCancellationResult(**kwargs)` with exactly the
keyword arguments the call site supplies: `refund_eta` is a required field of
the model, so omitting it (passing `none` here) raises a
`pydantic.ValidationError` instead of building the record. -/
def mkOrderCancellationResult (success : Bool) (message : String)
    (refund_amount : ℚ) (refund_eta : Option String) :
    Except PyError OrderCancellationResult :=
  match refund_eta with
  | some eta => .ok ⟨success, message, refund_amount, eta⟩
  | none => .error (.pydanticValidationError
      ("1 validation error for OrderCancellationResult: refund_eta field required"))

/-! ## Python values carried in tool-argument mappings -/

/-- A Python value as it appears in a tool-call argument mapping: strings,
numbers, booleans, `None`, lists, plain dicts, pydantic model instances
(`record`), and the opaque generator object produced by the dict branch of
`lowercase_value` (a generator expression is returned unevaluated; forcing it
would raise `TypeError` from `dict(k, lowercase_value(v))`, but it is never
forced). -/
inductive Value where
  | str : String → Value
  | int : Int → Value
  | float : ℚ → Value
  | bool : Bool → Value
  | none : Value
  | list : List Value → Value
  | dict : List (String × Value) → Value
  | record : String → List (String × Value) → Value
  | generator : Value
deriving Repr

/-- Python `str.lower()`, modelled as per-character lowercasing of the
string's characters. -/
def pyLower (s : String) : String := ⟨s.data.map Char.toLower⟩

/-- `isinstance(v, dict)`, returning the entries when it holds. -/
def Value.asDict : Value → Option (List (String × Value))
  | .dict kvs => some kvs
  | _ => Option.none

/-- `isinstance(v, list)`, returning the elements when it holds. -/
def Value.asList : Value → Option (List Value)
  | .list xs => some xs
  | _ => Option.none

/-! ## `lowercase_value` (`callbacks.py` lines 116-126)

The dict branch of the source is `return (dict(k, lowercase_value(v)) for
k, v in value.items())`: a generator expression, returned without being
consumed, so for a dict input the function returns an opaque generator and
lowercases nothing.  Python's `set` and `tuple` branches are folded into the
single `list` constructor here. -/

mutual

def lowercase_value : Value → Value
  | .dict _ => .generator
  | .str s => .str (pyLower s)
  | .list xs => .list (lowercase_list xs)
  | v => v

def lowercase_list : List Value → List Value
  | [] => []
  | v :: vs => lowercase_value v :: lowercase_list vs

end

mutual

/-- The normalization step the SPEC describes (spec section 4.1 step 2 and
testable property 3): recursively lowercase every string leaf, preserving the
structure of nested mappings and sequences.  This is the spec-side contrast
definition for the normalization claim; it is not translated from the
source. -/
def lowercaseSpec : Value → Value
  | .str s => .str (pyLower s)
  | .list xs => .list (lowercaseSpecList xs)
  | .dict kvs => .dict (lowercaseSpecKVs kvs)
  | v => v

def lowercaseSpecList : List Value → List Value
  | [] => []
  | v :: vs => lowercaseSpec v :: lowercaseSpecList vs

def lowercaseSpecKVs : List (String × Value) → List (String × Value)
  | [] => []
  | kv :: kvs => (kv.1, lowercaseSpec kv.2) :: lowercaseSpecKVs kvs

end

/-! ## `convert_args_to_pydantic` (`callbacks.py` lines 129-212) -/

/-- A pydantic BaseModel subclass as seen by the coercion logic: its name and
its required field names.  Pydantic construction `M(**d)` is abstracted as
requiring every required field to be present in `d` (field-level coercion is
not modelled; no claim depends on it). -/
structure ModelType where
  name : String
  required : List String
deriving DecidableEq, Repr

/-- A parameter's declared type as classified by `convert_args_to_pydantic`:
not-a-model (str, float, ...), a pydantic model subclass, or `list[...]`. -/
inductive ParamType where
  | basic : ParamType
  | model : ModelType → ParamType
  | listOf : ParamType → ParamType
deriving Repr

/-- Whether a dict has every required field of the model. -/
def validates (m : ModelType) (kvs : List (String × Value)) : Bool :=
  m.required.all (fun f => kvs.any (fun kv => kv.1 == f))

/-- `param_type(**param_value)`: build the model instance, or raise
`pydantic.ValidationError` when a required field is missing. -/
def pydantic_construct (m : ModelType) (kvs : List (String × Value)) :
    Except PyError Value :=
  if validates m kvs then .ok (.record m.name kvs)
  else .error (.pydanticValidationError (m.name ++ ": field required"))

/-- The per-element loop of the list branch (lines 186-192): dict elements are
converted, non-dict elements appended unchanged; the first failure aborts the
loop (the surrounding `try` then falls back to the original list). -/
def convert_list (m : ModelType) : List Value → Except PyError (List Value)
  | [] => .ok []
  | v :: rest =>
      match v.asDict with
      | some kvs =>
          (match pydantic_construct m kvs with
           | .error e => .error e
           | .ok r =>
              match convert_list m rest with
              | .error e => .error e
              | .ok rs => .ok (r :: rs))
      | Option.none =>
          (match convert_list m rest with
           | .error e => .error e
           | .ok rs => .ok (v :: rs))

/-- `get_type_hints(func)` lookup for one parameter name. -/
def lookupHint (hints : List (String × ParamType)) (n : String) : Option ParamType :=
  (hints.find? (fun h => h.1 == n)).map (fun h => h.2)

/-- The branch structure of lines 150-207, applied to one parameter's looked
up type hint (`none` = the parameter is not in the type hints): a dict whose
declared type is a model is constructed (raw dict kept on failure); a
non-empty list whose declared type is `list[Model]` is converted element-wise
(original list kept on failure); everything else — including already-typed
model instances and params without hints — passes through unchanged. -/
def apply_param : Option ParamType → Value → Value
  | Option.none, param_value => param_value
  | some param_type, param_value =>
    match param_type with
    | .model m =>
        (match param_value.asDict with
         | some kvs =>
             (match pydantic_construct m kvs with
              | .ok r => r
              | .error _ => .dict kvs)
         | Option.none => param_value)
    | .listOf item_type =>
        (match param_value.asList with
         | some items =>
             if items.isEmpty then param_value
             else
               (match item_type with
                | .model m =>
                    (match convert_list m items with
                     | .ok converted => .list converted
                     | .error _ => .list items)
                | _ => param_value)
         | Option.none => param_value)
    | .basic => param_value

/-- The body of the `for param_name, param_value in args.items()` loop of
`convert_args_to_pydantic`, for one parameter. -/
def convert_param (hints : List (String × ParamType)) (param_name : String)
    (param_value : Value) : Value :=
  apply_param (lookupHint hints param_name) param_value

/-- A tool as the mediation layer sees it: its registered name and, when the
tool wraps a plain function (`tool.func`), that function's type hints.
`func = none` models a tool object without a `func` attribute. -/
structure PyTool where
  name : String
  func : Option (List (String × ParamType))
deriving Repr

/-- `convert_args_to_pydantic` (`callbacks.py` lines 129-212).  The outer
`try`/`except` returning `args` can never fire here because the embedded body
is total; `func = none` is the `tool.func if hasattr(...) else None` early
return. -/
def convert_args_to_pydantic (tool : PyTool) (args : List (String × Value)) :
    List (String × Value) :=
  match tool.func with
  | Option.none => args
  | some hints => args.map (fun kv => (kv.1, convert_param hints kv.1 kv.2))

/-! ## Session state and `validate_customer_id` (lines 78-113) -/

/-- The serialized customer profile held in session state under
`customer_profile`: either JSON that `CustomerRecord.model_validate_json`
accepts, or text it rejects. -/
inductive ProfileJson where
  | valid : CustomerRecord → ProfileJson
  | invalid : String → ProfileJson
deriving DecidableEq, Repr

/-- The session state keys that the mediation layer reads or writes. -/
structure SessionState where
  customer_profile : Option ProfileJson := Option.none
deriving DecidableEq, Repr

/-- `CustomerRecord.model_validate_json`: raises
`pydantic.ValidationError` on input that does not parse as a record.  It never
raises the `jsonschema` exception class. -/
def model_validate_json : ProfileJson → Except PyError CustomerRecord
  | .valid c => .ok c
  | .invalid raw => .error (.pydanticValidationError ("Invalid JSON: " ++ raw))

/-- Python `==` between an argument value and a `str`: equal only when the
value is itself that string (mixed types compare unequal, without raising). -/
def pyStrEq (v : Value) (s : String) : Bool :=
  match v with
  | .str t => t == s
  | _ => false

/-- `validate_customer_id` (`callbacks.py` lines 78-113).  The
`except ValidationError` clause catches only `jsonschema.ValidationError`
(the class imported on line 15), while `model_validate_json` raises
`pydantic.ValidationError`, so a parse failure propagates out of the
function; the handler's branch is kept verbatim but is unreachable.
The mismatch branch concatenates the supplied id into the message, which
requires it to be a `str`. -/
def validate_customer_id (customer_id : Value) (session_state : SessionState) :
    Except PyError (Bool × Option String) :=
  match session_state.customer_profile with
  | Option.none =>
      .ok (false, some ("No customer profile selected. Please select a profile."))
  | some pj =>
    match model_validate_json pj with
    | .ok c =>
        if pyStrEq customer_id c.id then .ok (true, Option.none)
        else
          match customer_id with
          | .str cid =>
              .ok (false, some ("You cannot use the tool with customer_id "
                    ++ cid ++ ", only for " ++ c.id ++ "."))
          | _ => .error (.typeError ("can only concatenate str to str"))
    | .error e =>
        if isJsonschemaValidationError e then
          .ok (false, some ("Customer profile couldn\x27t be parsed. Please reload the customer data. "))
        else .error e

/-! ## `before_tool` (`callbacks.py` lines 216-246) -/

/-- The execution context of a tool callback: the session state and the name
of the agent issuing the call. -/
structure ToolContext where
  state : SessionState
  agent_name : String
deriving Repr

/-- What `before_tool` leaves behind: its return value (`none` = proceed to
the tool, `some msg` = deny and surface `msg` to the model) and the argument
mapping after its in-place mutations. -/
structure BeforeToolResult where
  ret : Option String
  args : List (String × Value)
deriving Repr

/-- First value stored under a key of the argument mapping (Python dict
lookup over the association-list representation). -/
def lookupArg : List (String × Value) → String → Option Value
  | [], _ => Option.none
  | kv :: rest, k => if kv.1 == k then some kv.2 else lookupArg rest k

/-- Python dict assignment `args[k] = v`: replace the value at an existing
key, else append the new entry. -/
def dictSet (args : List (String × Value)) (k : String) (v : Value) :
    List (String × Value) :=
  match args with
  | [] => [(k, v)]
  | kv :: rest => if kv.1 == k then (k, v) :: rest else kv :: dictSet rest k v

/-- `args.get("agent_name") == "customer_service_coordinator"`: true only when
the key is present and holds exactly that string (a missing key yields `None`,
which compares unequal). -/
def targetIsCoordinator (args : List (String × Value)) : Bool :=
  match lookupArg args ("agent_name") with
  | some (.str t) => t == "customer_service_coordinator"
  | _ => false

/-- Lines 236-246 of `before_tool`: a non-coordinator agent calling
`transfer_to_agent` with a target other than the coordinator has the target
rewritten to the coordinator; in every other case the args pass unchanged and
the callback returns `None`. -/
def transfer_guard (tool : PyTool) (args : List (String × Value))
    (tool_context : ToolContext) : BeforeToolResult :=
  if tool_context.agent_name != "customer_service_coordinator"
      && tool.name == "transfer_to_agent"
      && !targetIsCoordinator args then
    ⟨Option.none, dictSet args ("agent_name") (.str "customer_service_coordinator")⟩
  else
    ⟨Option.none, args⟩

/-- `before_tool` (`callbacks.py` lines 216-246).  Step order as in source:
argument coercion (written back into `args` via `clear`/`update`), the
`lowercase_value(args)` call on line 225 — whose return value is discarded
and which never mutates its argument, so it has no effect — the customer-id
check, then the transfer-routing guard. -/
def before_tool (tool : PyTool) (args : List (String × Value))
    (tool_context : ToolContext) : Except PyError BeforeToolResult :=
  let args1 := convert_args_to_pydantic tool args
  let _ := lowercase_value (.dict args1)
  match lookupArg args1 ("customer_id") with
  | some cid =>
      match validate_customer_id cid tool_context.state with
      | .error e => .error e
      | .ok (valid, err) =>
          if valid then .ok (transfer_guard tool args1 tool_context)
          else .ok ⟨err, args1⟩
  | Option.none => .ok (transfer_guard tool args1 tool_context)

/-! ## `rate_limit_callback` (`callbacks.py` lines 27-75)

Timestamps (`time.time()`) are modelled as rationals; the empty-text
normalization of the llm request parts does not touch the limiter state and
is not modelled.  The callback's effect is the new per-session counter state
plus the number of seconds it sleeps before returning. -/

def RATE_LIMIT_SECS : ℚ := 60

def RPM_QUOTA : ℕ := 10

/-- The per-session limiter state: `timer_start` and `request_count`. -/
structure RateLimitState where
  timer_start : ℚ
  request_count : ℕ
deriving DecidableEq, Repr

/-- One invocation's outcome: the stored state afterwards and the seconds
slept (0 when the callback returns immediately). -/
structure RateLimitOutcome where
  state : RateLimitState
  slept : ℚ
deriving DecidableEq, Repr

/-- `rate_limit_callback`: `none` is a session whose state has no
`timer_start` key yet. -/
def rate_limit_callback (st : Option RateLimitState) (now : ℚ) :
    RateLimitOutcome :=
  match st with
  | Option.none => ⟨⟨now, 1⟩, 0⟩
  | some s =>
      let request_count := s.request_count + 1
      let elapsed_secs := now - s.timer_start
      if request_count > RPM_QUOTA then
        let delay := RATE_LIMIT_SECS - elapsed_secs + 1
        let slept := if delay > 0 then delay else 0
        ⟨⟨now, 1⟩, slept⟩
      else
        ⟨⟨s.timer_start, request_count⟩, 0⟩

/-! ## Record store (`customer_service/database/database.py`)

Tables as typed row lists, with the column names of `init_db`.  JSON columns
(`profile`, `loyalty`, `subscriptions`, `communication_preferences`) are held
as the parsed values their text serializes, so `json.loads` is the identity
on them.  Rows that the source consumes through `dict_factory` dicts are
re-exposed as key/value lists where the dict access matters. -/

def DEFAULT_CUSTOMER_ID : String := "cust-1"

/-- A row of `customers`. -/
structure CustomerRow where
  id : String
  email : String
  profile : ProfileData
  loyalty : LoyaltyBalance
  subscriptions : SubscriptionPreferences
  communication_preferences : CommunicationPreferences
  locked : Bool
  deleted : Bool
deriving DecidableEq, Repr

/-- A row of `addresses`. -/
structure AddressRow where
  id : String
  customer_id : String
  line1 : String
  line2 : String
  city : String
  state : String
  postal_code : String
  country : String
deriving DecidableEq, Repr

/-- A row of `payment_methods` (`token` column is nullable). -/
structure PaymentMethodRow where
  id : String
  customer_id : String
  brand : String
  last4 : String
  exp_month : Int
  exp_year : Int
  token : Option String
deriving DecidableEq, Repr

/-- A row of `products`. -/
structure ProductRow where
  id : String
  name : String
  description : String
  category : String
  unit_price : ℚ
  stock_quantity : Int
deriving DecidableEq, Repr

/-- A row of `orders`.  Per the `init_db` schema (lines 100-109) the date
column is named `date` — not `date_ordered`, and there is no
`date_delivered` column. -/
structure OrderRow where
  id : String
  customer_id : String
  date : String
  total : ℚ
  status : String
deriving DecidableEq, Repr

/-- A row of `order_items` (the autoincrement `id` is not consulted). -/
structure OrderItemRow where
  order_id : String
  product_id : String
  quantity : Int
deriving DecidableEq, Repr

/-- The database. -/
structure DB where
  customers : List CustomerRow
  addresses : List AddressRow
  payment_methods : List PaymentMethodRow
  products : List ProductRow
  orders : List OrderRow
  order_items : List OrderItemRow
deriving DecidableEq, Repr

/-- A scalar cell as `dict_factory` hands it back. -/
inductive DBValue where
  | text : String → DBValue
  | real : ℚ → DBValue
deriving DecidableEq, Repr

/-- `dict_factory` applied to a `SELECT * FROM orders` row: the keys are the
schema's column names. -/
def orderRowDict (o : OrderRow) : List (String × DBValue) :=
  [("id", .text o.id), ("customer_id", .text o.customer_id),
   ("date", .text o.date), ("total", .real o.total), ("status", .text o.status)]

/-- Python `row[k]` on a `dict_factory` row: raises `KeyError` when the
column is absent. -/
def dictGetItem (row : List (String × DBValue)) (k : String) :
    Except PyError DBValue :=
  match row.find? (fun kv => kv.1 == k) with
  | some kv => .ok kv.2
  | Option.none => .error (.keyError k)

/-- Python `row.get(k, d)`. -/
def dictGetD (row : List (String × DBValue)) (k : String) (d : DBValue) : DBValue :=
  match row.find? (fun kv => kv.1 == k) with
  | some kv => kv.2
  | Option.none => d

/-- Projection of a cell consumed as text (only reached after the lookup
succeeded). -/
def DBValue.asText : DBValue → String
  | .text s => s
  | .real _ => ""

/-- Projection of a cell consumed as a number. -/
def DBValue.asReal : DBValue → ℚ
  | .real q => q
  | .text _ => 0

/-! ## `cancel_order` (`tools/order_management.py` lines 159-194)

Each return statement builds an `OrderCancellationResult` from keyword
arguments `success`, `message`, `refund_amount` only — `refund_eta` is never
supplied, which `mkOrderCancellationResult` records as `none`. -/

def cancel_order (db : DB) (order_id : String) (_reason : String) :
    Except PyError OrderCancellationResult :=
  match db.orders.find? (fun o => o.id == order_id) with
  | Option.none =>
      mkOrderCancellationResult false ("Order not found") 0 Option.none
  | some order =>
      if order.status == "shipped" || order.status == "delivered" then
        mkOrderCancellationResult false
          ("Order cannot be cancelled because it has already been " ++ order.status)
          0 Option.none
      else
        mkOrderCancellationResult true ("Order cancelled successfully")
          order.total Option.none

/-! ## `_get_customer_record` (`tools/account_management.py` lines 22-90) -/

/-- The `for order in cursor.fetchall()` loop of `_get_customer_record`
(lines 46-76): consumes each orders row as a dict and builds the pydantic
`Order`, evaluating the keyword arguments in source order — `id`, then
`order["date_ordered"]` (a `KeyError`, since the orders table column is
named `date`), then `order.get("date_delivered", "")`, `total`, `status`. -/
def ordersFromRows : List (List (String × DBValue)) → Except PyError (List Order)
  | [] => .ok []
  | row :: rest => do
      let oid ← dictGetItem row ("id")
      let d_ordered ← dictGetItem row ("date_ordered")
      let d_delivered := dictGetD row ("date_delivered") (.text "")
      let total ← dictGetItem row ("total")
      let status ← dictGetItem row ("status")
      let tail ← ordersFromRows rest
      pure ({ id := oid.asText, date_ordered := d_ordered.asText,
              date_delivered := d_delivered.asText, total := total.asReal,
              status := status.asText } :: tail)

/-- `Address(**addr)`: the row's extra `customer_id` key is ignored by
pydantic (default `extra` handling). -/
def addressOfRow (a : AddressRow) : Address :=
  { id := a.id, line1 := a.line1, line2 := a.line2, city := a.city,
    state := a.state, postal_code := a.postal_code, country := a.country }

/-- `PaymentMethod(**pm)`: extra `customer_id` ignored; a NULL token becomes
the model's empty-string default via its validator. -/
def paymentMethodOfRow (p : PaymentMethodRow) : PaymentMethod :=
  { id := p.id, brand := p.brand, last4 := p.last4, exp_month := p.exp_month,
    exp_year := p.exp_year, token := p.token.getD "" }

/-- `_get_customer_record`: raises `ValueError` when the customer row is
absent or soft-deleted (line 33), despite the `CustomerRecord | None` return
annotation; otherwise assembles the record, reading the customer's orders
through `ordersFromRows`. -/
def _get_customer_record (db : DB) (customer_id : String) :
    Except PyError CustomerRecord :=
  match db.customers.find? (fun c => c.id == customer_id && c.deleted == false) with
  | Option.none =>
      .error (.valueError ("Customer " ++ customer_id ++ " not found or account deleted"))
  | some customer => do
      let addresses :=
        (db.addresses.filter (fun a => a.customer_id == customer_id)).map addressOfRow
      let payment_methods :=
        (db.payment_methods.filter (fun p => p.customer_id == customer_id)).map
          paymentMethodOfRow
      let orders ← ordersFromRows
        (((db.orders.filter (fun o => o.customer_id == customer_id))).map orderRowDict)
      pure { id := customer.id, email := customer.email,
             profile := customer.profile, addresses := addresses,
             payment_methods := payment_methods, orders := orders,
             loyalty := customer.loyalty,
             subscriptions := customer.subscriptions,
             locked := customer.locked, deleted := customer.deleted }

/-! ## `get_order_history` (`tools/order_management.py` lines 17-71) -/

/-- `get_order_history`: an unknown or soft-deleted customer yields `[]`
(lines 31-35).  For an existing customer the source then executes
`SELECT * FROM orders WHERE customer_id = ? ORDER BY date_ordered DESC`,
whose ORDER BY names a column the orders table does not have (the column is
`date`), so sqlite raises `OperationalError` before any row is fetched; the
per-row item join and `Order` construction below it are unreachable. -/
def get_order_history (db : DB) (customer_id : String) :
    Except PyError (List Order) :=
  match db.customers.find? (fun c => c.id == customer_id && c.deleted == false) with
  | Option.none => .ok []
  | some _ => .error (.operationalError ("no such column: date_ordered"))

/-! ## `before_agent` (`callbacks.py` lines 268-275) -/

/-- `before_agent`: when no `customer_profile` is bound yet, fetch the
default customer's record and bind its `model_dump_json()` serialization
(which `model_validate_json` round-trips, i.e. `ProfileJson.valid`). -/
def before_agent (db : DB) (state : SessionState) : Except PyError SessionState :=
  match state.customer_profile with
  | some _ => .ok state
  | Option.none => do
      let record ← _get_customer_record db DEFAULT_CUSTOMER_ID
      pure { state with customer_profile := some (.valid record) }

/-! ## `update_email` (`tools/account_management.py` lines 126-143) -/

/-- The `UPDATE customers SET email = ? WHERE id = ? AND deleted = FALSE`
statement's effect inside the connection's implicit transaction. -/
def update_email_txn (db : DB) (customer_id new_email : String) : DB :=
  { db with customers := db.customers.map (fun c =>
      if c.id == customer_id && c.deleted == false then
        { c with email := new_email }
      else c) }

/-- The statement's `cursor.rowcount`: the number of rows the UPDATE
matched. -/
def update_email_rowcount (db : DB) (customer_id : String) : ℕ :=
  (db.customers.filter (fun c => c.id == customer_id && c.deleted == false)).length

/-- `update_email`: runs the UPDATE and returns `cursor.rowcount > 0`.  The
`conn.commit()` on line 142 is commented out, and `get_db` closes the
connection in its `finally` block without committing, which rolls the
implicit transaction back — so the persistent database after the call is the
one from before the call, and `update_email_txn`'s result is discarded. -/
def update_email (db : DB) (customer_id new_email : String) : Bool × DB :=
  let _pending := update_email_txn db customer_id new_email
  (decide (update_email_rowcount db customer_id > 0), db)

/-! ## Sample data (`database.py` `populate_sample_data`, lines 126-318) -/

/-- Customer `cust-1` (Alice), the default customer. -/
def cust1Row : CustomerRow :=
  { id := "cust-1", email := "alice@example.com",
    profile := { first_name := "Alice", last_name := "Example",
                 account_number := "A123456",
                 customer_start_date := "2023-01-15" },
    loyalty := { points := 120, tier := "silver",
                 rewards := ["5%_off_next_purchase"] },
    subscriptions := { marketing := true },
    communication_preferences := { email := true, sms := true,
                                   push_notifications := true },
    locked := false, deleted := false }

/-- Customer `cust-2` (Bob). -/
def cust2Row : CustomerRow :=
  { id := "cust-2", email := "bob@example.com",
    profile := { first_name := "Bob", last_name := "Smith",
                 account_number := "B789012",
                 customer_start_date := "2023-03-20" },
    loyalty := { points := 250, tier := "gold",
                 rewards := ["10%_off_next_purchase", "free_shipping"] },
    subscriptions := { marketing := true },
    communication_preferences := { email := true, sms := false,
                                   push_notifications := true },
    locked := false, deleted := false }

/-- The database as `init_db(); populate_sample_data()` leaves it. -/
def sampleDB : DB :=
  { customers := [cust1Row, cust2Row],
    addresses :=
      [⟨"addr-1", "cust-1", "123 Garden Lane", "", "Greenfield", "CA", "90210", "USA"⟩,
       ⟨"addr-2", "cust-2", "456 Oak Street", "Apt 12B", "Springfield", "NY", "10001", "USA"⟩],
    payment_methods :=
      [⟨"pm-1", "cust-1", "Visa", "4242", 12, 2026, Option.none⟩,
       ⟨"pm-2", "cust-2", "Mastercard", "5555", 8, 2027, Option.none⟩],
    products :=
      [⟨"123", "VP Vinyl Record - The Best of 80s", "Classic 80s hits compilation on vinyl", "Vinyl", 25.98, 50⟩,
       ⟨"2o972", "Louis Armstrong Greatest Hits - CD", "Louis Armstrong greatest hits collection", "CD", 13.45, 30⟩,
       ⟨"456", "The Beatles - Abbey Road Vinyl LP", "The Beatles iconic Abbey Road album on vinyl", "Vinyl", 32.99, 25⟩,
       ⟨"457", "Record Cleaning Kit", "Professional vinyl record cleaning kit", "Accessories", 14.94, 100⟩,
       ⟨"789", "Pink Floyd - Dark Side of the Moon Vinyl", "Pink Floyd classic album on vinyl", "Vinyl", 29.99, 40⟩,
       ⟨"101", "Miles Davis - Kind of Blue CD", "Miles Davis legendary jazz album", "CD", 15.99, 35⟩,
       ⟨"102", "Fleetwood Mac - Rumours Vinyl", "Fleetwood Mac bestselling album on vinyl", "Vinyl", 30.94, 20⟩],
    orders :=
      [⟨"ord-1", "cust-1", "2024-06-01", 39.43, "delivered"⟩,
       ⟨"ord-2", "cust-2", "2024-05-15", 47.93, "delivered"⟩,
       ⟨"ord-3", "cust-2", "2024-07-10", 76.92, "shipped"⟩,
       ⟨"ord-4", "cust-1", "2024-10-25", 62.93, "processing"⟩],
    order_items :=
      [⟨"ord-1", "123", 1⟩, ⟨"ord-1", "2o972", 1⟩, ⟨"ord-2", "456", 1⟩,
       ⟨"ord-2", "457", 1⟩, ⟨"ord-3", "789", 1⟩, ⟨"ord-3", "101", 1⟩,
       ⟨"ord-3", "102", 1⟩, ⟨"ord-4", "456", 1⟩, ⟨"ord-4", "789", 1⟩] }

/-! ## Helper lemmas -/

/-- String-valued arguments are never altered by argument coercion. -/
theorem convert_param_str (hints : List (String × ParamType)) (n s : String) :
    convert_param hints n (.str s) = .str s := by
  unfold convert_param
  cases h : lookupHint hints n with
  | none => rfl
  | some pt => cases pt <;> rfl

/-- Argument lookup commutes with the per-parameter coercion map. -/
theorem lookupArg_map_convert (hints : List (String × ParamType))
    (args : List (String × Value)) (k : String) :
    lookupArg (args.map (fun kv => (kv.1, convert_param hints kv.1 kv.2))) k
      = (lookupArg args k).map (fun v => convert_param hints k v) := by
  induction args with
  | nil => rfl
  | cons kv rest ih =>
    simp only [List.map_cons, lookupArg]
    by_cases h : kv.1 == k
    · have hk : kv.1 = k := by simpa using h
      subst hk
      simp
    · simp [h, ih]

/-- A string-valued argument keeps its key and value across
`convert_args_to_pydantic`. -/
theorem lookupArg_convert_str (tool : PyTool) (args : List (String × Value))
    (k s : String) (h : lookupArg args k = some (.str s)) :
    lookupArg (convert_args_to_pydantic tool args) k = some (.str s) := by
  unfold convert_args_to_pydantic
  cases tool.func with
  | none => exact h
  | some hints =>
      rw [lookupArg_map_convert, h]
      simp [convert_param_str]

/-- Looking up the key just written by Python dict assignment. -/
theorem lookupArg_dictSet (args : List (String × Value)) (k : String)
    (v : Value) : lookupArg (dictSet args k v) k = some v := by
  induction args with
  | nil => simp [dictSet, lookupArg]
  | cons kv rest ih =>
    simp only [dictSet]
    by_cases h : kv.1 == k
    · simp [lookupArg, h]
    · simp [lookupArg, h, ih]

/-! ## Claim theorems -/

/-- C1: in a session with a bound, parseable customer profile, any tool call
whose `customer_id` argument is a string different from the bound record's id
makes `before_tool` return the denial string — naming both the supplied and
the bound id — so the framework skips the underlying tool; the argument
mapping is left as the coercion step produced it. -/
theorem c1_customer_id_mismatch_denied
    (tool : PyTool) (args : List (String × Value)) (ctx : ToolContext)
    (c : CustomerRecord) (cid : String)
    (hbound : ctx.state.customer_profile = some (.valid c))
    (harg : lookupArg args ("customer_id") = some (.str cid))
    (hne : cid ≠ c.id) :
    before_tool tool args ctx =
      .ok ⟨some ("You cannot use the tool with customer_id " ++ cid
              ++ ", only for " ++ c.id ++ "."),
           convert_args_to_pydantic tool args⟩ := by
  have harg' := lookupArg_convert_str tool args ("customer_id") cid harg
  have hbeq : (cid == c.id) = false := beq_eq_false_iff_ne.mpr hne
  unfold before_tool
  dsimp only
  rw [harg']
  unfold validate_customer_id
  rw [hbound]
  simp [model_validate_json, pyStrEq, hbeq]

/-- C1 witness: tool call with `customer_id = cust-2` against a session bound
to `cust-1` is denied with the message naming both ids. -/
theorem c1_witness :
    before_tool ⟨"get_order_history", Option.none⟩
        [("customer_id", Value.str "cust-2")]
        ⟨{ customer_profile :=
             some (.valid { id := "cust-1", email := "alice@example.com" }) },
         "order_management_agent"⟩
      = .ok ⟨some ("You cannot use the tool with customer_id cust-2, only for cust-1."),
             [("customer_id", Value.str "cust-2")]⟩ :=
  c1_customer_id_mismatch_denied _ _ _
    { id := "cust-1", email := "alice@example.com" } "cust-2" rfl rfl (by decide)

/-- C2: the claim says `validate_customer_id` never raises and turns an
unparseable bound profile into a "profile unreadable" denial string.  The
code contradicts this: `model_validate_json` raises
`pydantic.ValidationError`, while the `except ValidationError` clause names
the unrelated `jsonschema.ValidationError` imported on line 15, so the parse
failure propagates out of the gating function instead of becoming the denial
string. -/
theorem c2_unreadable_profile_raises :
    validate_customer_id (Value.str "cust-1")
        { customer_profile := some (.invalid "garbage") }
      = .error (.pydanticValidationError ("Invalid JSON: garbage")) := rfl

/-- C3: the claim says that after `before_tool`'s normalization step every
string value of the argument mapping is lowercased.  The code contradicts
this: `lowercase_value(args)`'s return value is discarded and its dict branch
returns an unevaluated generator rather than a lowercased dict, so an
uppercase string argument survives `before_tool` unchanged — while the
spec-side normalization `lowercaseSpec` would have lowercased it. -/
theorem c3_normalization_never_lowercases :
    before_tool ⟨"search_products", Option.none⟩
        [("query", Value.str "ABC")]
        ⟨{}, "customer_service_coordinator"⟩
      = .ok ⟨Option.none, [("query", Value.str "ABC")]⟩
    ∧ lowercase_value (Value.dict [("query", Value.str "ABC")]) = Value.generator
    ∧ lowercaseSpec (Value.dict [("query", Value.str "ABC")])
        = Value.dict [("query", Value.str "abc")] := by
  refine ⟨rfl, rfl, ?_⟩
  have h : pyLower ("ABC") = "abc" := by decide
  simp only [lowercaseSpec, lowercaseSpecKVs, h]

/-- `pydantic_construct` succeeds only with the record it builds. -/
theorem pydantic_construct_ok_eq (m : ModelType) (kvs : List (String × Value))
    (r : Value) (h : pydantic_construct m kvs = .ok r) :
    r = .record m.name kvs := by
  unfold pydantic_construct at h
  cases hv : validates m kvs <;> rw [hv] at h <;> simp at h
  exact h.symm

/-- Inversion of the `isinstance(v, dict)` test. -/
theorem Value.asDict_eq_some (v : Value) (kvs : List (String × Value))
    (h : v.asDict = some kvs) : v = .dict kvs := by
  cases v <;> simp [Value.asDict] at h
  rw [h]

/-- Inversion of the `isinstance(v, list)` test. -/
theorem Value.asList_eq_some (v : Value) (xs : List Value)
    (h : v.asList = some xs) : v = .list xs := by
  cases v <;> simp [Value.asList] at h
  rw [h]

/-- A value that is no dict fails the `isinstance(v, dict)` test. -/
theorem Value.asDict_eq_none (v : Value) (h : ∀ kvs, v ≠ Value.dict kvs) :
    v.asDict = Option.none := by
  cases v <;> first | rfl | exact absurd rfl (h _)

/-- A successful element-wise conversion leaves no dict in the result list:
dict elements became records and the rest passed through unchanged. -/
theorem convert_list_ok_no_dict (m : ModelType) :
    ∀ (xs l : List Value), convert_list m xs = .ok l →
      ∀ v ∈ l, ∀ kvs, v ≠ Value.dict kvs := by
  intro xs
  induction xs with
  | nil =>
      intro l h v hv kvs
      unfold convert_list at h
      cases h
      cases hv
  | cons x rest ih =>
      intro l h v hv kvs
      unfold convert_list at h
      cases hd : x.asDict with
      | some kvs0 =>
          rw [hd] at h
          dsimp only at h
          cases hc : pydantic_construct m kvs0 with
          | error e => rw [hc] at h; cases h
          | ok r =>
              rw [hc] at h
              dsimp only at h
              cases hr : convert_list m rest with
              | error e => rw [hr] at h; cases h
              | ok rs =>
                  rw [hr] at h
                  dsimp only at h
                  cases h
                  rcases List.mem_cons.mp hv with rfl | hmem
                  · rw [pydantic_construct_ok_eq m kvs0 v hc]
                    intro hcontra
                    cases hcontra
                  · exact ih rs hr v hmem kvs
      | none =>
          rw [hd] at h
          dsimp only at h
          cases hr : convert_list m rest with
          | error e => rw [hr] at h; cases h
          | ok rs =>
              rw [hr] at h
              dsimp only at h
              cases h
              rcases List.mem_cons.mp hv with rfl | hmem
              · intro hcontra
                rw [hcontra] at hd
                cases hd
              · exact ih rs hr v hmem kvs

/-- A successful element-wise conversion preserves the list's length. -/
theorem convert_list_ok_length (m : ModelType) :
    ∀ (xs l : List Value), convert_list m xs = .ok l → l.length = xs.length := by
  intro xs
  induction xs with
  | nil =>
      intro l h
      unfold convert_list at h
      cases h
      rfl
  | cons x rest ih =>
      intro l h
      unfold convert_list at h
      cases hd : x.asDict with
      | some kvs0 =>
          rw [hd] at h
          dsimp only at h
          cases hc : pydantic_construct m kvs0 with
          | error e => rw [hc] at h; cases h
          | ok r =>
              rw [hc] at h
              dsimp only at h
              cases hr : convert_list m rest with
              | error e => rw [hr] at h; cases h
              | ok rs =>
                  rw [hr] at h
                  dsimp only at h
                  cases h
                  simp [ih rs hr]
      | none =>
          rw [hd] at h
          dsimp only at h
          cases hr : convert_list m rest with
          | error e => rw [hr] at h; cases h
          | ok rs =>
              rw [hr] at h
              dsimp only at h
              cases h
              simp [ih rs hr]

/-- A list with no dict elements converts to itself. -/
theorem convert_list_of_no_dict (m : ModelType) :
    ∀ xs, (∀ v ∈ xs, ∀ kvs, v ≠ Value.dict kvs) →
      convert_list m xs = .ok xs := by
  intro xs
  induction xs with
  | nil => intro _; rfl
  | cons x rest ih =>
      intro h
      have hrest := ih (fun v hv kvs => h v (List.mem_cons_of_mem x hv) kvs)
      have hd : x.asDict = Option.none :=
        Value.asDict_eq_none x (h x (List.mem_cons_self _ _))
      unfold convert_list
      rw [hd, hrest]

/-- Already-typed model instances pass through coercion unchanged, whatever
the declared parameter type. -/
theorem apply_param_record (o : Option ParamType) (nm : String)
    (fs : List (String × Value)) :
    apply_param o (.record nm fs) = .record nm fs := by
  cases o with
  | none => rfl
  | some pt => cases pt <;> rfl

/-- One parameter's coercion is idempotent. -/
theorem apply_param_idem (o : Option ParamType) (v : Value) :
    apply_param o (apply_param o v) = apply_param o v := by
  cases o with
  | none => rfl
  | some pt =>
    cases pt with
    | basic => rfl
    | model m =>
        cases hd : v.asDict with
        | none =>
            have hinner : apply_param (some (.model m)) v = v := by
              simp only [apply_param, hd]
            rw [hinner, hinner]
        | some kvs =>
            cases hc : pydantic_construct m kvs with
            | ok r =>
                have hinner : apply_param (some (.model m)) v = r := by
                  simp only [apply_param, hd, hc]
                rw [hinner, pydantic_construct_ok_eq m kvs r hc,
                    apply_param_record]
            | error e =>
                have hinner : apply_param (some (.model m)) v = .dict kvs := by
                  simp only [apply_param, hd, hc]
                have hveq := Value.asDict_eq_some v kvs hd
                rw [hinner, ← hveq, hinner, hveq]
    | listOf t =>
        cases hl : v.asList with
        | none =>
            have hinner : apply_param (some (.listOf t)) v = v := by
              simp only [apply_param, hl]
            rw [hinner, hinner]
        | some items =>
            have hveq := Value.asList_eq_some v items hl
            cases he : items.isEmpty with
            | true =>
                have hinner : apply_param (some (.listOf t)) v = v := by
                  simp only [apply_param, hl, he, if_true]
                rw [hinner, hinner]
            | false =>
                cases t with
                | model m =>
                    cases hcl : convert_list m items with
                    | ok l =>
                        have hnd := convert_list_ok_no_dict m items l hcl
                        have hlen := convert_list_ok_length m items l hcl
                        have hle : l.isEmpty = false := by
                          cases l with
                          | nil =>
                              cases items with
                              | nil => simp at he
                              | cons a as => simp at hlen
                          | cons a as => rfl
                        have hok : convert_list m l = .ok l :=
                          convert_list_of_no_dict m l hnd
                        have hinner :
                            apply_param (some (.listOf (.model m))) v
                              = .list l := by
                          simp only [apply_param, hl, he, Bool.false_eq_true,
                            if_false, hcl]
                        have houter :
                            apply_param (some (.listOf (.model m))) (.list l)
                              = .list l := by
                          simp only [apply_param, Value.asList, hle,
                            Bool.false_eq_true, if_false, hok]
                        rw [hinner, houter]
                    | error e =>
                        have hinner :
                            apply_param (some (.listOf (.model m))) v
                              = .list items := by
                          simp only [apply_param, hl, he, Bool.false_eq_true,
                            if_false, hcl]
                        rw [hinner, ← hveq, hinner, hveq]
                | basic =>
                    have hinner :
                        apply_param (some (.listOf .basic)) v = v := by
                      simp only [apply_param, hl, he, Bool.false_eq_true,
                        if_false]
                    rw [hinner, hinner]
                | listOf t2 =>
                    have hinner :
                        apply_param (some (.listOf (.listOf t2))) v = v := by
                      simp only [apply_param, hl, he, Bool.false_eq_true,
                        if_false]
                    rw [hinner, hinner]

/-- C4: argument coercion is idempotent and total — re-coercing coerced
arguments is the identity; an argument that is already a typed record passes
through unchanged under any declared type; a dict that fails validation
against the declared model comes back as the original raw dict; and a list
of already-typed (dict-free) elements declared as `list[Model]` passes
through unchanged.  Totality is intrinsic: the embedded function is total,
mirroring the catch-all `try`/`except` of the source. -/
theorem c4_convert_args_idempotent :
    (∀ (tool : PyTool) (args : List (String × Value)),
        convert_args_to_pydantic tool (convert_args_to_pydantic tool args)
          = convert_args_to_pydantic tool args)
    ∧ (∀ (hints : List (String × ParamType)) (n nm : String)
        (fs : List (String × Value)),
        convert_param hints n (.record nm fs) = .record nm fs)
    ∧ (∀ (hints : List (String × ParamType)) (n : String) (m : ModelType)
        (kvs : List (String × Value)),
        lookupHint hints n = some (.model m) → validates m kvs = false →
        convert_param hints n (.dict kvs) = .dict kvs)
    ∧ (∀ (hints : List (String × ParamType)) (n : String) (m : ModelType)
        (l : List Value),
        lookupHint hints n = some (.listOf (.model m)) →
        (∀ v ∈ l, ∀ kvs, v ≠ Value.dict kvs) →
        convert_param hints n (.list l) = .list l) := by
  refine ⟨?_, ?_, ?_, ?_⟩
  · intro tool args
    cases hf : tool.func with
    | none => simp [convert_args_to_pydantic, hf]
    | some hints =>
        simp only [convert_args_to_pydantic, hf]
        rw [List.map_map]
        apply List.map_congr_left
        intro kv _
        simp only [Function.comp_apply, convert_param]
        rw [apply_param_idem]
  · intro hints n nm fs
    unfold convert_param
    exact apply_param_record _ nm fs
  · intro hints n m kvs hl hv
    unfold convert_param
    rw [hl]
    have hc : pydantic_construct m kvs
        = .error (.pydanticValidationError (m.name ++ ": field required")) := by
      unfold pydantic_construct
      rw [hv]
      rfl
    simp only [apply_param, Value.asDict, hc]
  · intro hints n m l hl hnd
    unfold convert_param
    rw [hl]
    cases he : l.isEmpty with
    | true => simp only [apply_param, Value.asList, he, if_true]
    | false =>
        have hok : convert_list m l = .ok l := convert_list_of_no_dict m l hnd
        simp only [apply_param, Value.asList, he, Bool.false_eq_true, if_false,
          hok]

/-- C4 witness: concrete instances of all four conjuncts — a tool whose
`address_data` parameter is the `AddressData` model, re-coerced args, an
already-typed record, an invalid (empty) dict, and an empty typed list. -/
theorem c4_witness :
    convert_args_to_pydantic
        ⟨"add_address", some [("address_data",
            ParamType.model ⟨"AddressData", ["line1", "postal_code"]⟩)]⟩
        (convert_args_to_pydantic
          ⟨"add_address", some [("address_data",
              ParamType.model ⟨"AddressData", ["line1", "postal_code"]⟩)]⟩
          [("address_data", Value.dict [("line1", Value.str "x")])])
      = convert_args_to_pydantic
          ⟨"add_address", some [("address_data",
              ParamType.model ⟨"AddressData", ["line1", "postal_code"]⟩)]⟩
          [("address_data", Value.dict [("line1", Value.str "x")])]
    ∧ convert_param [("address_data",
          ParamType.model ⟨"AddressData", ["line1", "postal_code"]⟩)]
        "address_data" (.record "AddressData" []) = .record "AddressData" []
    ∧ convert_param [("address_data",
          ParamType.model ⟨"AddressData", ["line1", "postal_code"]⟩)]
        "address_data" (.dict []) = .dict []
    ∧ convert_param [("updated_items",
          ParamType.listOf (ParamType.model ⟨"OrderItem", ["product_id", "quantity"]⟩))]
        "updated_items" (.list []) = .list [] := by
  obtain ⟨h1, h2, h3, h4⟩ := c4_convert_args_idempotent
  exact ⟨h1 _ _, h2 _ _ _ _, h3 _ _ _ _ rfl rfl,
         h4 _ _ _ [] rfl (fun v hv kvs => absurd hv (List.not_mem_nil v))⟩

/-- C5: with quota 10 and a 60-second window, the rate limiter starts a
window with count 1 on a session's first call; a call while the incremented
count is still within quota only increments the count (window start
untouched, no sleep); and the 11th call within the window sleeps a positive
amount that keeps the caller blocked through the window boundary
(`timer_start + 60`), then stores window start `now` and count 1. -/
theorem c5_rate_limiter (now ts : ℚ) (c : ℕ) :
    (rate_limit_callback Option.none now = ⟨⟨now, 1⟩, 0⟩)
    ∧ (c + 1 ≤ RPM_QUOTA →
        rate_limit_callback (some ⟨ts, c⟩) now = ⟨⟨ts, c + 1⟩, 0⟩)
    ∧ (c = RPM_QUOTA → ts ≤ now → now - ts < RATE_LIMIT_SECS →
        (rate_limit_callback (some ⟨ts, c⟩) now).state = ⟨now, 1⟩
        ∧ 0 < (rate_limit_callback (some ⟨ts, c⟩) now).slept
        ∧ ts + RATE_LIMIT_SECS ≤ now + (rate_limit_callback (some ⟨ts, c⟩) now).slept) := by
  refine ⟨rfl, ?_, ?_⟩
  · intro h
    unfold rate_limit_callback
    have hq : ¬ c + 1 > RPM_QUOTA := by omega
    simp only [hq, if_false]
  · intro hc hts hwin
    subst hc
    have hq : RPM_QUOTA + 1 > RPM_QUOTA := by omega
    have hdelay : 0 < RATE_LIMIT_SECS - (now - ts) + 1 := by
      unfold RATE_LIMIT_SECS at *
      linarith
    have hcall : rate_limit_callback (some ⟨ts, RPM_QUOTA⟩) now
        = ⟨⟨now, 1⟩, RATE_LIMIT_SECS - (now - ts) + 1⟩ := by
      unfold rate_limit_callback
      dsimp only
      rw [if_pos hq, if_pos hdelay]
    rw [hcall]
    refine ⟨rfl, hdelay, ?_⟩
    dsimp only
    unfold RATE_LIMIT_SECS at *
    linarith

/-- C5 witness: a fresh session at t=5; a 4th call at t=5 within quota; the
11th call at t=30 of a window opened at t=0 — it sleeps a positive amount,
stays blocked through the t=60 boundary, and stores `(30, 1)`. -/
theorem c5_witness :
    rate_limit_callback Option.none 5 = ⟨⟨5, 1⟩, 0⟩
    ∧ rate_limit_callback (some ⟨5, 3⟩) 5 = ⟨⟨5, 4⟩, 0⟩
    ∧ (rate_limit_callback (some ⟨0, 10⟩) 30).state = ⟨30, 1⟩
    ∧ 0 < (rate_limit_callback (some ⟨0, 10⟩) 30).slept
    ∧ (0 : ℚ) + RATE_LIMIT_SECS ≤ 30 + (rate_limit_callback (some ⟨0, 10⟩) 30).slept := by
  obtain ⟨h1, h2, h3⟩ := c5_rate_limiter 30 0 10
  obtain ⟨h4, h5, h6⟩ := h3 rfl (by norm_num) (by norm_num [RATE_LIMIT_SECS])
  exact ⟨(c5_rate_limiter 5 5 0).1,
         (c5_rate_limiter 5 5 3).2.1 (by norm_num [RPM_QUOTA]),
         h4, h5, h6⟩

/-- C6 counterexample: a specialist (`order_management_agent`) calls
`transfer_to_agent` with a non-coordinator target, but the arguments also
carry a `customer_id` that fails validation against the bound profile — the
callback denies the call before reaching the rewrite, so the target argument
is NOT rewritten to the coordinator, refuting the claim's "regardless"
universal. -/
theorem c6_counterexample :
    ∃ r, before_tool ⟨"transfer_to_agent", Option.none⟩
          [("agent_name", Value.str "account_management_agent"),
           ("customer_id", Value.str "cust-2")]
          ⟨{ customer_profile :=
               some (.valid { id := "cust-1", email := "alice@example.com" }) },
           "order_management_agent"⟩ = .ok r
      ∧ r.ret = some ("You cannot use the tool with customer_id cust-2, only for cust-1.")
      ∧ targetIsCoordinator r.args = false :=
  ⟨_, rfl, rfl, rfl⟩

/-- C6 amended: a specialist calling `transfer_to_agent` with a
non-coordinator target has the target rewritten to the coordinator and the
call proceeds — provided any `customer_id` among the (coerced) arguments
passes validation against the session; otherwise the call is denied before
the rewrite, as the counterexample shows. -/
theorem c6_transfer_rewritten (tool : PyTool) (args : List (String × Value))
    (ctx : ToolContext)
    (hagent : ctx.agent_name ≠ "customer_service_coordinator")
    (htool : tool.name = "transfer_to_agent")
    (hcid : ∀ v, lookupArg (convert_args_to_pydantic tool args) ("customer_id") = some v →
        validate_customer_id v ctx.state = .ok (true, Option.none))
    (htarget : targetIsCoordinator (convert_args_to_pydantic tool args) = false) :
    ∃ r, before_tool tool args ctx = .ok r
      ∧ r.ret = Option.none
      ∧ lookupArg r.args ("agent_name")
          = some (.str "customer_service_coordinator") := by
  have hagentb : (ctx.agent_name != "customer_service_coordinator") = true := by
    simp [hagent]
  have htoolb : (tool.name == "transfer_to_agent") = true := by
    simp [htool]
  have hguard : transfer_guard tool (convert_args_to_pydantic tool args) ctx
      = ⟨Option.none,
         dictSet (convert_args_to_pydantic tool args) ("agent_name")
           (.str "customer_service_coordinator")⟩ := by
    unfold transfer_guard
    rw [hagentb, htoolb, htarget]
    rfl
  unfold before_tool
  dsimp only
  cases harg : lookupArg (convert_args_to_pydantic tool args) ("customer_id") with
  | none =>
      rw [hguard]
      exact ⟨_, rfl, rfl, lookupArg_dictSet _ _ _⟩
  | some v =>
      dsimp only
      rw [hcid v harg]
      dsimp only
      rw [if_pos rfl, hguard]
      exact ⟨_, rfl, rfl, lookupArg_dictSet _ _ _⟩

/-- C6 witness for the amended theorem: a specialist transfer with no
`customer_id` argument is rewritten to the coordinator. -/
theorem c6_witness :
    ∃ r, before_tool ⟨"transfer_to_agent", Option.none⟩
          [("agent_name", Value.str "account_management_agent")]
          ⟨{}, "order_management_agent"⟩ = .ok r
      ∧ r.ret = Option.none
      ∧ lookupArg r.args ("agent_name")
          = some (.str "customer_service_coordinator") :=
  c6_transfer_rewritten _ _ _ (by decide) rfl (fun v h => nomatch h) rfl

/-- C7: the claim describes `cancel_order`'s success/failure results, but the
code cannot produce any of them: `OrderCancellationResult` requires a
`refund_eta` field that no return statement of `cancel_order` supplies, so
every call — not-found, shipped/delivered, and processing alike — raises
`pydantic.ValidationError` instead of returning a result. -/
theorem c7_cancel_order_always_raises (db : DB) (order_id reason : String) :
    cancel_order db order_id reason
      = .error (.pydanticValidationError
          ("1 validation error for OrderCancellationResult: refund_eta field required")) := by
  unfold cancel_order
  cases db.orders.find? (fun o => o.id == order_id) with
  | none => rfl
  | some order =>
      dsimp only
      by_cases h : (order.status == "shipped" || order.status == "delivered") = true
      · rw [if_pos h]
        rfl
      · rw [if_neg h]
        rfl

/-- C8: the claim says not-found lookups surface as typed `success=false` /
empty results and never raise.  Two of the cited operations raise instead:
`cancel_order` with an unknown order id raises `pydantic.ValidationError`
(the not-found result itself omits the required `refund_eta`), and
`_get_customer_record` with an unknown customer id raises `ValueError`
(line 33), despite its `CustomerRecord | None` annotation.  Only
`get_order_history` conforms, returning `[]` for an unknown customer. -/
theorem c8_not_found_raises :
    cancel_order sampleDB "no-such-order" "customer request"
      = .error (.pydanticValidationError
          ("1 validation error for OrderCancellationResult: refund_eta field required"))
    ∧ _get_customer_record sampleDB "cust-999"
      = .error (.valueError ("Customer cust-999 not found or account deleted"))
    ∧ get_order_history sampleDB "cust-999" = .ok [] :=
  ⟨rfl, rfl, rfl⟩

/-- C9: the claim says `before_agent` completes without error on a fresh
session and binds the default customer's serialized record.  The code raises
instead: `_get_customer_record` reads each orders row as
`order["date_ordered"]`, but the orders table's column is named `date`
(schema lines 100-109), so binding the default customer `cust-1` — who has
orders `ord-1` and `ord-4` in the sample data — raises
`KeyError: date_ordered` before anything is bound. -/
theorem c9_before_agent_raises :
    before_agent sampleDB {} = .error (.keyError ("date_ordered")) := rfl

/-- A list does not equal its image under `f` when it has an element `f`
moves (the map is positionwise). -/
theorem list_map_ne_self {α : Type} (f : α → α) (l : List α) (c : α)
    (hc : c ∈ l) (hfc : f c ≠ c) : l.map f ≠ l := by
  induction l with
  | nil => cases hc
  | cons a rest ih =>
      intro h
      rw [List.map_cons, List.cons.injEq] at h
      rcases List.mem_cons.mp hc with rfl | hmem
      · exact hfc h.1
      · exact ih hmem h.2

/-- C10: for an existing, non-deleted customer, `update_email` returns
`True`, yet — because the UPDATE's transaction is rolled back when `get_db`
closes the connection without the (commented-out) commit — the persistent
database after the call is exactly the database from before it, every
customer row included; the transaction buffer itself (`update_email_txn`)
would have differed, so the loss is real. -/
theorem c10_update_email_not_persisted (db : DB) (c : CustomerRow)
    (em : String) (hc : c ∈ db.customers) (hdel : c.deleted = false)
    (hem : c.email ≠ em) :
    (update_email db c.id em).1 = true
    ∧ (update_email db c.id em).2 = db
    ∧ update_email_txn db c.id em ≠ db := by
  refine ⟨?_, rfl, ?_⟩
  · have hmem : c ∈ db.customers.filter
        (fun c2 => c2.id == c.id && c2.deleted == false) :=
      List.mem_filter.mpr ⟨hc, by simp [hdel]⟩
    have hpos : 0 < update_email_rowcount db c.id := by
      unfold update_email_rowcount
      exact List.length_pos.mpr (List.ne_nil_of_mem hmem)
    simp [update_email, hpos]
  · intro h
    have h2 : db.customers.map (fun c2 =>
        if c2.id == c.id && c2.deleted == false then
          { c2 with email := em } else c2) = db.customers :=
      congrArg DB.customers h
    refine list_map_ne_self _ db.customers c hc ?_ h2
    simp only [beq_self_eq_true, hdel, Bool.and_self, if_true]
    intro heq
    exact hem (congrArg CustomerRow.email heq).symm

/-- C10 witness: updating `cust-1`'s email in the sample database reports
success but leaves the database unchanged. -/
theorem c10_witness :
    (update_email sampleDB "cust-1" "zz@example.com").1 = true
    ∧ (update_email sampleDB "cust-1" "zz@example.com").2 = sampleDB
    ∧ update_email_txn sampleDB "cust-1" "zz@example.com" ≠ sampleDB :=
  c10_update_email_not_persisted sampleDB cust1Row "zz@example.com"
    (List.mem_cons_self _ _) rfl (by decide)

end CustomerService
